import Mathlib

/-!
Shallow embedding of the SeasideVPN NetworkManager plugin bridge
(`src/viridian/barnacles/network-manager/plugin/plugin.c`).

The plugin is a control-plane bridge: it loads an engine module
(`libseaside.so`) via `dlopen`/`dlsym`, drives a session lifecycle
(`real_connect` / `real_disconnect`), translates engine-produced
`VPNConfig` records into NetworkManager variant dictionaries
(`seaside_set_vpnconfig_idle`), and forwards asynchronous engine errors
onto the GLib main loop via `g_idle_add` (`capture_error` /
`capture_error_idle`).

External collaborators (the dynamic loader, the engine entry points, GLib
base64 decoding) are modelled as explicit parameters; host-visible side
effects (engine start/stop invocations, `dlclose`, NetworkManager
disconnect notifications, scheduled idle callbacks) are recorded in the
result records so theorems can speak about them.
-/

namespace Seaside

/-- A value stored in a NetworkManager variant dictionary entry. -/
inductive CfgVal where
  | str (s : String)
  | u32 (n : Nat)
  | boolean (b : Bool)
  | u32list (l : List Nat)
  deriving DecidableEq, Repr

/-- The engine-produced configuration record (`struct VPNConfig` from
`seaside.h`, fields exactly as read by `seaside_set_vpnconfig_idle`).
`tunnel_name` is a C string that may be NULL (`none`); all addresses are
32-bit host-order IPv4 integers; 0 means unset. The C field
`tunnel_prefix` is rendered here as `tunnel_prefix_len`. -/
structure VPNConfig where
  tunnel_name : Option String
  tunnel_mtu : Nat
  remote_address : Nat
  tunnel_gateway : Nat
  tunnel_address : Nat
  tunnel_prefix_len : Nat
  dns_address : Nat
  deriving DecidableEq, Repr

/-- `g_htonl` on the little-endian host assumed by the source (its `IP`
macro prints bytes 3,2,1,0 as the dotted quad): a 32-bit byte swap. -/
def g_htonl (x : Nat) : Nat :=
  (x % 256) * 16777216 + (x / 256 % 256) * 65536 +
    (x / 65536 % 256) * 256 + (x / 16777216 % 256)

/-- NetworkManager dictionary key `NM_VPN_PLUGIN_CONFIG_TUNDEV`. -/
def NM_VPN_PLUGIN_CONFIG_TUNDEV : String := "tundev"

/-- NetworkManager dictionary key `NM_VPN_PLUGIN_CONFIG_MTU`. -/
def NM_VPN_PLUGIN_CONFIG_MTU : String := "mtu"

/-- NetworkManager dictionary key `NM_VPN_PLUGIN_CONFIG_EXT_GATEWAY`. -/
def NM_VPN_PLUGIN_CONFIG_EXT_GATEWAY : String := "gateway"

/-- NetworkManager dictionary key `NM_VPN_PLUGIN_CONFIG_HAS_IP4`. -/
def NM_VPN_PLUGIN_CONFIG_HAS_IP4 : String := "has-ip4"

/-- NetworkManager dictionary key `NM_VPN_PLUGIN_IP4_CONFIG_INT_GATEWAY`. -/
def NM_VPN_PLUGIN_IP4_CONFIG_INT_GATEWAY : String := "internal-gateway"

/-- NetworkManager dictionary key `NM_VPN_PLUGIN_IP4_CONFIG_ADDRESS`. -/
def NM_VPN_PLUGIN_IP4_CONFIG_ADDRESS : String := "address"

/-- NetworkManager dictionary key `NM_VPN_PLUGIN_IP4_CONFIG_PREFIX`
(the macro name ends in a word this development cannot use as a Lean
identifier suffix, hence the `_KEY` rendering). -/
def NM_VPN_PLUGIN_IP4_CONFIG_PFX_KEY : String := "prefix"

/-- NetworkManager dictionary key `NM_VPN_PLUGIN_IP4_CONFIG_DNS`. -/
def NM_VPN_PLUGIN_IP4_CONFIG_DNS : String := "dns"

/-- The C test `data->cfg->tunnel_name && data->cfg->tunnel_name[0]`:
pointer non-NULL and first character non-zero. -/
def tunnel_name_nonempty (cfg : VPNConfig) : Bool :=
  match cfg.tunnel_name with
  | some s => s.length != 0
  | none => false

/-- The general (non-IPv4) dictionary built by `seaside_set_vpnconfig_idle`
(plugin.c lines 122-145), entries in build order. -/
def seaside_general_config (cfg : VPNConfig) : List (String × CfgVal) :=
  (if tunnel_name_nonempty cfg then
    [(NM_VPN_PLUGIN_CONFIG_TUNDEV, CfgVal.str (cfg.tunnel_name.getD ""))]
  else []) ++
  (if cfg.tunnel_mtu ≠ 0 then
    [(NM_VPN_PLUGIN_CONFIG_MTU, CfgVal.u32 cfg.tunnel_mtu)]
  else []) ++
  (if cfg.remote_address ≠ 0 then
    [(NM_VPN_PLUGIN_CONFIG_EXT_GATEWAY, CfgVal.u32 (g_htonl cfg.remote_address))]
  else []) ++
  [(NM_VPN_PLUGIN_CONFIG_HAS_IP4, CfgVal.boolean true)]

/-- The IPv4 dictionary built by `seaside_set_vpnconfig_idle`
(plugin.c lines 147-175), entries in build order. -/
def seaside_ip4_config (cfg : VPNConfig) : List (String × CfgVal) :=
  (if cfg.tunnel_gateway ≠ 0 then
    [(NM_VPN_PLUGIN_IP4_CONFIG_INT_GATEWAY, CfgVal.u32 (g_htonl cfg.tunnel_gateway))]
  else []) ++
  (if cfg.tunnel_address ≠ 0 then
    [(NM_VPN_PLUGIN_IP4_CONFIG_ADDRESS, CfgVal.u32 (g_htonl cfg.tunnel_address))]
  else []) ++
  (if cfg.tunnel_prefix_len ≠ 0 then
    [(NM_VPN_PLUGIN_IP4_CONFIG_PFX_KEY, CfgVal.u32 cfg.tunnel_prefix_len)]
  else []) ++
  (if cfg.dns_address ≠ 0 then
    [(NM_VPN_PLUGIN_IP4_CONFIG_DNS, CfgVal.u32list [g_htonl cfg.dns_address])]
  else [])

/-- The GError codes the plugin sets (`NM_VPN_PLUGIN_ERROR_*`). `failed`
is `NM_VPN_PLUGIN_ERROR_FAILED`, the code used for an engine stop
failure (the StopFailed case of the design). -/
inductive NmErr where
  | invalidConnection
  | badArguments
  | launchFailed
  | failed
  deriving DecidableEq, Repr

/-- The three data items `real_connect` reads from connection settings
(keys "certifile", "certificate", "protocol");
`nm_setting_vpn_get_data_item` returns NULL (`none`) for an absent item. -/
structure ConnSettings where
  certifile : Option String
  certificate : Option String
  protocol : Option String
  deriving DecidableEq, Repr

/-- Behaviour of the external pieces during one call: the dynamic loader
(`dlopen` success, which symbols `dlsym` resolves) and the engine entry
points (result of `vpn_start` and `vpn_stop`, the config record, session
handle and error strings they produce). -/
structure EngineEnv where
  dlopen_ok : Bool
  has_vpn_start : Bool
  has_vpn_stop : Bool
  start_ok : Bool
  start_cfg : VPNConfig
  start_handle : Nat
  start_err : String
  stop_ok : Bool
  stop_err : String
  deriving DecidableEq, Repr

/-- `NMSeasidePluginPrivate`: module handle, stored session handle
(`coordinator`, `none` = NULL), and whether each resolved entry-point
pointer is non-NULL. -/
structure PluginPriv where
  lib_handle : Bool
  coordinator : Option Nat
  vpn_start : Bool
  vpn_stop : Bool
  deriving DecidableEq, Repr

/-- `nm_seaside_plugin_init`: all private fields NULL. -/
def nm_seaside_plugin_init : PluginPriv :=
  { lib_handle := false, coordinator := none, vpn_start := false, vpn_stop := false }

/-- Result of `seaside_load_library`: updated private state, gboolean
result, the GError set on failure, and how many times `dlclose` ran. -/
structure LoadOut where
  priv : PluginPriv
  ok : Bool
  err : Option NmErr
  dlcloseCount : Nat
  deriving DecidableEq, Repr

/-- `seaside_load_library` (plugin.c lines 82-113): reuse a cached handle;
otherwise `dlopen` the well-known soname, resolve `vpn_start` and
`vpn_stop`, and on any missing symbol set a LAUNCH_FAILED error,
`dlclose` the module and clear the handle. -/
def seaside_load_library (env : EngineEnv) (priv : PluginPriv) : LoadOut :=
  if priv.lib_handle then
    { priv := priv, ok := true, err := none, dlcloseCount := 0 }
  else if !env.dlopen_ok then
    { priv := priv, ok := false, err := some NmErr.launchFailed, dlcloseCount := 0 }
  else
    let priv1 : PluginPriv :=
      { priv with lib_handle := true, vpn_start := env.has_vpn_start, vpn_stop := env.has_vpn_stop }
    if !priv1.vpn_start || !priv1.vpn_stop then
      { priv := { priv1 with lib_handle := false },
        ok := false, err := some NmErr.launchFailed, dlcloseCount := 1 }
    else
      { priv := priv1, ok := true, err := none, dlcloseCount := 0 }

/-- The first argument handed to `vpn_start`: either the certificate
string passed through unchanged (`g_strdup`, file-path branch) or the
bytes produced by `g_base64_decode`. -/
inductive CertPayload where
  | path (s : String)
  | bytes (b : List Nat)
  deriving DecidableEq, Repr

/-- One invocation of the engine start entry point, with the arguments
the bridge passed. -/
structure StartCall where
  payload : CertPayload
  len : Nat
  protocol : String
  deriving DecidableEq, Repr

/-- Result of `real_connect`: updated private state, gboolean result, the
GError set on failure, whether `g_base64_decode` ran, every `vpn_start`
invocation, every `dlclose`, and the config records scheduled for idle
delivery via `g_idle_add(seaside_set_vpnconfig_idle, ...)`. -/
structure ConnectOut where
  priv : PluginPriv
  ok : Bool
  err : Option NmErr
  decodeAttempted : Bool
  startCalls : List StartCall
  dlcloseCount : Nat
  scheduledConfigs : List VPNConfig
  deriving DecidableEq, Repr

/-- `real_connect` (plugin.c lines 184-250). `s_vpn = none` models a
connection without VPN settings; `g_base64_decode` is the external GLib
decoder. Control flow follows the source exactly: certificate presence
check, certifile-selected decode or pass-through, protocol presence
check, library load, `vpn_start`, then idle scheduling of the returned
config record. -/
def real_connect (env : EngineEnv) (g_base64_decode : String → List Nat)
    (s_vpn : Option ConnSettings) (priv : PluginPriv) : ConnectOut :=
  match s_vpn with
  | none =>
    { priv := priv, ok := false, err := some NmErr.invalidConnection,
      decodeAttempted := false, startCalls := [], dlcloseCount := 0, scheduledConfigs := [] }
  | some s =>
    match s.certificate with
    | none =>
      { priv := priv, ok := false, err := some NmErr.badArguments,
        decodeAttempted := false, startCalls := [], dlcloseCount := 0, scheduledConfigs := [] }
    | some cert =>
      let decAttempted : Bool := s.certifile.isNone
      let certificate_data : CertPayload :=
        if s.certifile.isSome then CertPayload.path cert
        else CertPayload.bytes (g_base64_decode cert)
      let certificate_length : Nat :=
        if s.certifile.isSome then 0 else (g_base64_decode cert).length
      match s.protocol with
      | none =>
        { priv := priv, ok := false, err := some NmErr.badArguments,
          decodeAttempted := decAttempted, startCalls := [], dlcloseCount := 0,
          scheduledConfigs := [] }
      | some proto =>
        let load := seaside_load_library env priv
        if !load.ok then
          { priv := load.priv, ok := false, err := load.err,
            decodeAttempted := decAttempted, startCalls := [],
            dlcloseCount := load.dlcloseCount, scheduledConfigs := [] }
        else
          let call : StartCall :=
            { payload := certificate_data, len := certificate_length, protocol := proto }
          if env.start_ok then
            { priv := { load.priv with coordinator := some env.start_handle },
              ok := true, err := none, decodeAttempted := decAttempted,
              startCalls := [call], dlcloseCount := load.dlcloseCount,
              scheduledConfigs := [env.start_cfg] }
          else
            { priv := load.priv, ok := false, err := some NmErr.launchFailed,
              decodeAttempted := decAttempted, startCalls := [call],
              dlcloseCount := load.dlcloseCount, scheduledConfigs := [] }

/-- Result of `real_disconnect`: updated private state, gboolean result,
the GError set (if the engine stop failed), the handles passed to
`vpn_stop`, and how many times `nm_vpn_service_plugin_disconnect` was
issued to the host. -/
structure DisconnectOut where
  priv : PluginPriv
  ok : Bool
  err : Option NmErr
  stopCalls : List Nat
  nmDisconnectCalls : Nat
  deriving DecidableEq, Repr

/-- `real_disconnect` (plugin.c lines 253-275): when a coordinator handle
is stored and `vpn_stop` resolved, invoke `vpn_stop`; a stop failure
sets a FAILED GError but teardown proceeds; the handle is cleared
unconditionally inside that branch; `nm_vpn_service_plugin_disconnect`
is issued on every path and the function returns TRUE on every path. -/
def real_disconnect (env : EngineEnv) (priv : PluginPriv) : DisconnectOut :=
  match priv.coordinator with
  | some handle =>
    if priv.vpn_stop then
      { priv := { priv with coordinator := none },
        ok := true,
        err := if env.stop_ok then none else some NmErr.failed,
        stopCalls := [handle], nmDisconnectCalls := 1 }
    else
      { priv := priv, ok := true, err := none, stopCalls := [], nmDisconnectCalls := 1 }
  | none =>
    { priv := priv, ok := true, err := none, stopCalls := [], nmDisconnectCalls := 1 }

/-- `CaptureErrorData`: one queued async-error event; `message = none`
models the engine reporting a clean exit (NULL message). -/
structure CaptureErrorData where
  message : Option String
  deriving DecidableEq, Repr

/-- A host-visible action the queued error handler performs. -/
inductive HandlerEffect where
  | markFailure
  | requestDisconnect
  | fatalReport (m : String)
  | freeMessage
  | releaseEvent
  deriving DecidableEq, Repr

/-- GLib `G_SOURCE_REMOVE`: returning it removes the idle source, so the
handler runs exactly once per enqueued event. -/
def G_SOURCE_REMOVE : Bool := false

/-- Outcome of one idle-handler dispatch: either the handler returned a
gboolean to the main loop, or it terminated the process before
returning. -/
inductive HandlerOutcome where
  | returned (keep : Bool)
  | aborted
  deriving DecidableEq, Repr

/-- `capture_error_idle` (plugin.c lines 48-68), as the list of
host-visible actions it performs in program order plus its outcome. With
a message it marks the plugin failed (CONNECT_FAILED), requests
disconnect from NetworkManager, and then calls `g_error`, which logs at
the always-fatal `G_LOG_LEVEL_ERROR` and never returns: the process
aborts, so the `free` of the message buffer, the `g_free` of the event
and the `return G_SOURCE_REMOVE` that follow in the source (plugin.c
lines 60-67) are dead code on this path. Without a message it logs the
clean exit, frees the event and returns `G_SOURCE_REMOVE`. -/
def capture_error_idle (d : CaptureErrorData) : List HandlerEffect × HandlerOutcome :=
  match d.message with
  | some m =>
    ([HandlerEffect.markFailure, HandlerEffect.requestDisconnect,
      HandlerEffect.fatalReport m], HandlerOutcome.aborted)
  | none => ([HandlerEffect.releaseEvent], HandlerOutcome.returned G_SOURCE_REMOVE)

/-- `capture_error` (plugin.c lines 70-79): wrap the message in a
`CaptureErrorData` and `g_idle_add` it; GLib appends idle sources in
FIFO order, so the dispatch queue is modelled as a list with enqueue at
the tail. -/
def capture_error (queue : List CaptureErrorData) (message : Option String) :
    List CaptureErrorData :=
  queue ++ [{ message := message }]

/-- Modelled from the spec: the GLib main loop (external to src/) drains
pending idle sources once each, in enqueue order, removing a source that
returns `G_SOURCE_REMOVE` (no handler in this development returns
`G_SOURCE_CONTINUE`); a handler that terminates the process ends the
drain and the remaining enqueued events are never dispatched. Returns
the effect list of each handler that actually ran. -/
def drain_idle_queue : List CaptureErrorData → List (List HandlerEffect)
  | [] => []
  | d :: rest =>
    match capture_error_idle d with
    | (effs, HandlerOutcome.aborted) => [effs]
    | (effs, HandlerOutcome.returned _) => effs :: drain_idle_queue rest

/-- Session state as seen by the host control plane: running, or already
torn down. -/
inductive SessionState where
  | running
  | terminated
  deriving DecidableEq, Repr

/-- Modelled from the spec: NetworkManager (external to src/) serializes
teardown so exactly one teardown path executes — a disconnect request
against a running session executes teardown and terminates it; against
an already-terminated session it is a no-op. Returns the new state and
whether this effect executed a teardown. -/
def apply_effect (s : SessionState) (e : HandlerEffect) : SessionState × Bool :=
  match e with
  | HandlerEffect.requestDisconnect =>
    match s with
    | SessionState.running => (SessionState.terminated, true)
    | SessionState.terminated => (SessionState.terminated, false)
  | _ => (s, false)

/-- Run a list of handler effects against the host session state,
counting how many of them executed a teardown. -/
def run_effects (s : SessionState) (effs : List HandlerEffect) : SessionState × Nat :=
  effs.foldl
    (fun acc e =>
      let r := apply_effect acc.1 e
      (r.1, acc.2 + (if r.2 then 1 else 0)))
    (s, 0)

/-- A zeroed config record, for concrete witnesses. -/
def cfg_zero : VPNConfig :=
  { tunnel_name := none, tunnel_mtu := 0, remote_address := 0,
    tunnel_gateway := 0, tunnel_address := 0, tunnel_prefix_len := 0, dns_address := 0 }

/-- An environment where loading and both entry points succeed. -/
def env_ok : EngineEnv :=
  { dlopen_ok := true, has_vpn_start := true, has_vpn_stop := true,
    start_ok := true, start_cfg := cfg_zero, start_handle := 1,
    start_err := "", stop_ok := true, stop_err := "" }

/-- An environment where the module loads but `vpn_start` is missing. -/
def env_nostart : EngineEnv :=
  { env_ok with has_vpn_start := false }

/-- An environment where the engine stop entry point fails. -/
def env_stopfail : EngineEnv :=
  { env_ok with stop_ok := false }

/-- A base64 decoder instance for concrete inputs: the empty string
decodes to zero bytes, as `g_base64_decode` does. -/
def dec0 : String → List Nat := fun _ => []

/-- A private state after a successful load and connect: module handle
cached, both symbols resolved, a session handle stored. -/
def priv_running : PluginPriv :=
  { lib_handle := true, coordinator := some 5, vpn_start := true, vpn_stop := true }

/-- Claim C4: for every disconnect call made while an engine handle is
stored (with the stop symbol resolved, as it always is in any state that
stores a handle), the stop entry point is invoked exactly once with that
handle, the handle is cleared regardless of whether the stop succeeds,
and a stop failure is surfaced in the GError slot as the FAILED /
StopFailed error while teardown still completes (the call still notifies
the host and returns TRUE). -/
theorem C4_disconnect_with_handle (env : EngineEnv) (priv : PluginPriv) (handle : Nat)
    (hc : priv.coordinator = some handle) (hs : priv.vpn_stop = true) :
    (real_disconnect env priv).stopCalls = [handle] ∧
    (real_disconnect env priv).priv.coordinator = none ∧
    (env.stop_ok = false → (real_disconnect env priv).err = some NmErr.failed) ∧
    (env.stop_ok = true → (real_disconnect env priv).err = none) ∧
    (real_disconnect env priv).nmDisconnectCalls = 1 ∧
    (real_disconnect env priv).ok = true := by
  simp [real_disconnect, hc, hs]

/-- Claim C4 witness: a running session whose engine stop fails. -/
theorem C4_disconnect_with_handle_witness :
    (real_disconnect env_stopfail priv_running).stopCalls = [5] ∧
    (real_disconnect env_stopfail priv_running).priv.coordinator = none ∧
    (env_stopfail.stop_ok = false →
      (real_disconnect env_stopfail priv_running).err = some NmErr.failed) ∧
    (env_stopfail.stop_ok = true →
      (real_disconnect env_stopfail priv_running).err = none) ∧
    (real_disconnect env_stopfail priv_running).nmDisconnectCalls = 1 ∧
    (real_disconnect env_stopfail priv_running).ok = true :=
  C4_disconnect_with_handle env_stopfail priv_running 5 rfl rfl

/-- Claim C7: calling disconnect twice in succession from any reachable
state (a stored handle implies the stop symbol is resolved, and the
engine stop succeeds when invoked) succeeds both times — TRUE return and
no GError — with no session left after the first call and the stop entry
point not invoked at all during the second call. -/
theorem C7_disconnect_idempotent (env : EngineEnv) (priv : PluginPriv)
    (hstop : env.stop_ok = true)
    (hinv : priv.coordinator.isSome → priv.vpn_stop = true) :
    (real_disconnect env priv).ok = true ∧
    (real_disconnect env priv).err = none ∧
    (real_disconnect env priv).priv.coordinator = none ∧
    (real_disconnect env (real_disconnect env priv).priv).ok = true ∧
    (real_disconnect env (real_disconnect env priv).priv).err = none ∧
    (real_disconnect env (real_disconnect env priv).priv).stopCalls = [] := by
  cases h : priv.coordinator with
  | none => simp [real_disconnect, h]
  | some handle =>
    have hv : priv.vpn_stop = true := hinv (by simp [h])
    simp [real_disconnect, h, hv, hstop]

/-- Claim C7 witness: a running session followed by a second disconnect. -/
theorem C7_disconnect_idempotent_witness :
    env_ok.stop_ok = true ∧
    ((real_disconnect env_ok priv_running).ok = true ∧
     (real_disconnect env_ok priv_running).err = none ∧
     (real_disconnect env_ok priv_running).priv.coordinator = none ∧
     (real_disconnect env_ok (real_disconnect env_ok priv_running).priv).ok = true ∧
     (real_disconnect env_ok (real_disconnect env_ok priv_running).priv).err = none ∧
     (real_disconnect env_ok (real_disconnect env_ok priv_running).priv).stopCalls = []) :=
  ⟨rfl, C7_disconnect_idempotent env_ok priv_running rfl (fun _ => rfl)⟩

/-- Claim C10: every disconnect call, whatever the private state —
including the no-session path with no stored handle — issues exactly one
host-side disconnect notification (`nm_vpn_service_plugin_disconnect`)
and returns TRUE. -/
theorem C10_disconnect_always_notifies (env : EngineEnv) (priv : PluginPriv) :
    (real_disconnect env priv).nmDisconnectCalls = 1 ∧
    (real_disconnect env priv).ok = true := by
  cases h : priv.coordinator with
  | none => simp [real_disconnect, h]
  | some handle =>
    cases hv : priv.vpn_stop <;> simp [real_disconnect, h, hv]

/-- Claim C1 counterexample: the claim as stated fails when "empty" means
an empty string value. With the certificate item present but equal to ""
and the protocol item present but equal to "" (and a decoder returning
zero bytes for "", as `g_base64_decode` does), `real_connect` does not
return BAD_ARGUMENTS: validation only checks that the items are non-NULL,
so the engine start entry point is invoked and the call succeeds. -/
theorem C1_counterexample :
    (real_connect env_ok dec0
      (some { certifile := none, certificate := some "", protocol := some "" })
      nm_seaside_plugin_init).err ≠ some NmErr.badArguments ∧
    (real_connect env_ok dec0
      (some { certifile := none, certificate := some "", protocol := some "" })
      nm_seaside_plugin_init).startCalls ≠ [] ∧
    (real_connect env_ok dec0
      (some { certifile := none, certificate := some "", protocol := some "" })
      nm_seaside_plugin_init).ok = true := by
  refine ⟨?_, ?_, ?_⟩ <;> decide

/-- Claim C1 (amended): for every connect call, if the certificate data
item or the protocol data item is ABSENT from the settings (NULL from
`nm_setting_vpn_get_data_item`), connect returns the BAD_ARGUMENTS
validation error and the engine start entry point is not invoked; a
present-but-empty string value passes this validation. -/
theorem C1_absent_param_validation (env : EngineEnv) (dec : String → List Nat)
    (s : ConnSettings) (priv : PluginPriv)
    (h : s.certificate = none ∨ s.protocol = none) :
    (real_connect env dec (some s) priv).ok = false ∧
    (real_connect env dec (some s) priv).err = some NmErr.badArguments ∧
    (real_connect env dec (some s) priv).startCalls = [] := by
  cases hc : s.certificate with
  | none => simp [real_connect, hc]
  | some cert =>
    cases hp : s.protocol with
    | none => simp [real_connect, hc, hp]
    | some proto =>
      rcases h with h | h
      · exact absurd hc (by simp [h])
      · exact absurd hp (by simp [h])

/-- Claim C1 witness: certificate item absent, protocol present. -/
theorem C1_absent_param_validation_witness :
    ((⟨none, none, some "p"⟩ : ConnSettings).certificate = none ∨
      (⟨none, none, some "p"⟩ : ConnSettings).protocol = none) ∧
    ((real_connect env_ok dec0 (some ⟨none, none, some "p"⟩) nm_seaside_plugin_init).ok = false ∧
     (real_connect env_ok dec0 (some ⟨none, none, some "p"⟩) nm_seaside_plugin_init).err =
       some NmErr.badArguments ∧
     (real_connect env_ok dec0 (some ⟨none, none, some "p"⟩) nm_seaside_plugin_init).startCalls = []) :=
  ⟨Or.inl rfl,
   C1_absent_param_validation env_ok dec0 ⟨none, none, some "p"⟩ nm_seaside_plugin_init (Or.inl rfl)⟩

/-- Claim C2 counterexample: when the module is found (`dlopen` succeeds)
but the `vpn_start` symbol cannot be resolved, connect does fail with
LAUNCH_FAILED — but the loaded module IS unloaded: `seaside_load_library`
calls `dlclose` (plugin.c line 107) and clears the handle, so the
"no module unload is attempted" part of the claim is false. -/
theorem C2_counterexample :
    (real_connect env_nostart dec0
      (some { certifile := none, certificate := some "c", protocol := some "p" })
      nm_seaside_plugin_init).err = some NmErr.launchFailed ∧
    (real_connect env_nostart dec0
      (some { certifile := none, certificate := some "c", protocol := some "p" })
      nm_seaside_plugin_init).dlcloseCount ≠ 0 := by
  refine ⟨?_, ?_⟩ <;> decide

/-- Claim C2 (amended): for every load attempt in which the engine module
is found but the start symbol (or the stop symbol) cannot be resolved,
connect fails with the LAUNCH_FAILED error without invoking the engine,
and the just-loaded module is unloaded again: `dlclose` runs once and
the cached module handle is cleared. -/
theorem C2_missing_symbol_unloads (env : EngineEnv) (dec : String → List Nat)
    (s : ConnSettings) (priv : PluginPriv) (c p : String)
    (hcert : s.certificate = some c) (hproto : s.protocol = some p)
    (hlib : priv.lib_handle = false)
    (hopen : env.dlopen_ok = true)
    (hsym : env.has_vpn_start = false ∨ env.has_vpn_stop = false) :
    (real_connect env dec (some s) priv).ok = false ∧
    (real_connect env dec (some s) priv).err = some NmErr.launchFailed ∧
    (real_connect env dec (some s) priv).startCalls = [] ∧
    (real_connect env dec (some s) priv).dlcloseCount = 1 ∧
    (real_connect env dec (some s) priv).priv.lib_handle = false := by
  rcases hsym with h | h <;>
    simp [real_connect, hcert, hproto, seaside_load_library, hlib, hopen, h]

/-- Claim C2 witness: module present, `vpn_start` missing, fresh state. -/
theorem C2_missing_symbol_unloads_witness :
    (({ certifile := none, certificate := some "c", protocol := some "p" } :
        ConnSettings).certificate = some "c") ∧
    ((real_connect env_nostart dec0
        (some { certifile := none, certificate := some "c", protocol := some "p" })
        nm_seaside_plugin_init).ok = false ∧
     (real_connect env_nostart dec0
        (some { certifile := none, certificate := some "c", protocol := some "p" })
        nm_seaside_plugin_init).err = some NmErr.launchFailed ∧
     (real_connect env_nostart dec0
        (some { certifile := none, certificate := some "c", protocol := some "p" })
        nm_seaside_plugin_init).startCalls = [] ∧
     (real_connect env_nostart dec0
        (some { certifile := none, certificate := some "c", protocol := some "p" })
        nm_seaside_plugin_init).dlcloseCount = 1 ∧
     (real_connect env_nostart dec0
        (some { certifile := none, certificate := some "c", protocol := some "p" })
        nm_seaside_plugin_init).priv.lib_handle = false) :=
  ⟨rfl,
   C2_missing_symbol_unloads env_nostart dec0
     { certifile := none, certificate := some "c", protocol := some "p" }
     nm_seaside_plugin_init "c" "p" rfl rfl rfl rfl (Or.inl rfl)⟩

/-- Claim C6: for every connect call whose settings carry the file-path
selector item ("certifile" present, any value) and that reaches the
engine (library load succeeds), the certificate value is passed to the
start entry point unchanged as the path string with certificate length 0,
no base64 decoding is attempted, and the start entry point is invoked
exactly once with those arguments. -/
theorem C6_certifile_passthrough (env : EngineEnv) (dec : String → List Nat)
    (f c p : String) (priv : PluginPriv)
    (hload : (seaside_load_library env priv).ok = true) :
    (real_connect env dec (some ⟨some f, some c, some p⟩) priv).decodeAttempted = false ∧
    (real_connect env dec (some ⟨some f, some c, some p⟩) priv).startCalls =
      [{ payload := CertPayload.path c, len := 0, protocol := p }] := by
  cases hs : env.start_ok <;> simp [real_connect, hload, hs]

/-- Claim C6 witness: the certificate "/tmp/cert.sea" with the selector
item set to "true", starting from a fresh plugin state and a loadable
engine. -/
theorem C6_certifile_passthrough_witness :
    (seaside_load_library env_ok nm_seaside_plugin_init).ok = true ∧
    ((real_connect env_ok dec0 (some ⟨some "true", some "/tmp/cert.sea", some "p"⟩)
        nm_seaside_plugin_init).decodeAttempted = false ∧
     (real_connect env_ok dec0 (some ⟨some "true", some "/tmp/cert.sea", some "p"⟩)
        nm_seaside_plugin_init).startCalls =
       [{ payload := CertPayload.path "/tmp/cert.sea", len := 0, protocol := "p" }]) :=
  ⟨rfl, C6_certifile_passthrough env_ok dec0 "true" "/tmp/cert.sea" "p"
    nm_seaside_plugin_init rfl⟩

/-- Claim C9: in every connect call that processes a certificate (the
"certificate" item is present; otherwise the call fails BAD_ARGUMENTS
before touching it), the file-path selector is decided by mere presence
of the "certifile" item: base64 decoding is attempted if and only if the
item is absent, and whenever it is present with any value — including ""
or "false" — every engine start invocation receives the certificate as
an unchanged path string of length 0. -/
theorem C9_selector_by_presence (env : EngineEnv) (dec : String → List Nat)
    (s : ConnSettings) (priv : PluginPriv) (c : String)
    (hcert : s.certificate = some c) :
    ((real_connect env dec (some s) priv).decodeAttempted = true ↔ s.certifile = none) ∧
    (∀ v, s.certifile = some v →
      (real_connect env dec (some s) priv).decodeAttempted = false ∧
      ∀ call ∈ (real_connect env dec (some s) priv).startCalls,
        call.payload = CertPayload.path c ∧ call.len = 0) := by
  cases hp : s.protocol with
  | none =>
    cases hf : s.certifile <;>
      simp [real_connect, hcert, hp, hf]
  | some proto =>
    cases hf : s.certifile with
    | none =>
      cases hl : (seaside_load_library env priv).ok <;>
        cases hs : env.start_ok <;>
          simp [real_connect, hcert, hp, hf, hl, hs]
    | some v =>
      cases hl : (seaside_load_library env priv).ok <;>
        cases hs : env.start_ok <;>
          simp [real_connect, hcert, hp, hf, hl, hs]

/-- Claim C9 witness: the selector item present with value "false" and an
empty-string check on the absent side. -/
theorem C9_selector_by_presence_witness :
    (({ certifile := some "false", certificate := some "c", protocol := some "p" } :
        ConnSettings).certificate = some "c") ∧
    (((real_connect env_ok dec0
        (some { certifile := some "false", certificate := some "c", protocol := some "p" })
        nm_seaside_plugin_init).decodeAttempted = true ↔
        ({ certifile := some "false", certificate := some "c", protocol := some "p" } :
          ConnSettings).certifile = none) ∧
     (∀ v, ({ certifile := some "false", certificate := some "c", protocol := some "p" } :
          ConnSettings).certifile = some v →
       (real_connect env_ok dec0
          (some { certifile := some "false", certificate := some "c", protocol := some "p" })
          nm_seaside_plugin_init).decodeAttempted = false ∧
       ∀ call ∈ (real_connect env_ok dec0
          (some { certifile := some "false", certificate := some "c", protocol := some "p" })
          nm_seaside_plugin_init).startCalls,
         call.payload = CertPayload.path "c" ∧ call.len = 0)) :=
  ⟨rfl, C9_selector_by_presence env_ok dec0
    { certifile := some "false", certificate := some "c", protocol := some "p" }
    nm_seaside_plugin_init "c" rfl⟩

/-- Claim C5: translating a config record whose local tunnel address is X
(nonzero), prefix length is 24 and DNS address is Y (nonzero), with
tunnel name absent, MTU 0 and both gateways 0, yields exactly the IPv4
dictionary [address := X in network byte order, prefix length := 24,
dns := the one-element list [Y in network byte order]] — no gateway
entry — and a general dictionary holding only the always-true has-ip4
flag: no MTU, tunnel-name or external-gateway entry. -/
theorem C5_translate_roundtrip (X Y : Nat) (hx : X ≠ 0) (hy : Y ≠ 0) :
    seaside_ip4_config
      { tunnel_name := none, tunnel_mtu := 0, remote_address := 0,
        tunnel_gateway := 0, tunnel_address := X, tunnel_prefix_len := 24,
        dns_address := Y } =
      [(NM_VPN_PLUGIN_IP4_CONFIG_ADDRESS, CfgVal.u32 (g_htonl X)),
       (NM_VPN_PLUGIN_IP4_CONFIG_PFX_KEY, CfgVal.u32 24),
       (NM_VPN_PLUGIN_IP4_CONFIG_DNS, CfgVal.u32list [g_htonl Y])] ∧
    seaside_general_config
      { tunnel_name := none, tunnel_mtu := 0, remote_address := 0,
        tunnel_gateway := 0, tunnel_address := X, tunnel_prefix_len := 24,
        dns_address := Y } =
      [(NM_VPN_PLUGIN_CONFIG_HAS_IP4, CfgVal.boolean true)] := by
  simp [seaside_ip4_config, seaside_general_config, tunnel_name_nonempty, hx, hy]

/-- Claim C5 witness: local address 10.0.0.2 and DNS 8.8.8.8 as 32-bit
host-order integers. -/
theorem C5_translate_roundtrip_witness :
    (167772162 : Nat) ≠ 0 ∧ (134744072 : Nat) ≠ 0 ∧
    (seaside_ip4_config
      { tunnel_name := none, tunnel_mtu := 0, remote_address := 0,
        tunnel_gateway := 0, tunnel_address := 167772162, tunnel_prefix_len := 24,
        dns_address := 134744072 } =
      [(NM_VPN_PLUGIN_IP4_CONFIG_ADDRESS, CfgVal.u32 (g_htonl 167772162)),
       (NM_VPN_PLUGIN_IP4_CONFIG_PFX_KEY, CfgVal.u32 24),
       (NM_VPN_PLUGIN_IP4_CONFIG_DNS, CfgVal.u32list [g_htonl 134744072])] ∧
     seaside_general_config
      { tunnel_name := none, tunnel_mtu := 0, remote_address := 0,
        tunnel_gateway := 0, tunnel_address := 167772162, tunnel_prefix_len := 24,
        dns_address := 134744072 } =
      [(NM_VPN_PLUGIN_CONFIG_HAS_IP4, CfgVal.boolean true)]) :=
  ⟨by decide, by decide,
   C5_translate_roundtrip 167772162 134744072 (by decide) (by decide)⟩

/-- Claim C3 (code bug): when two asynchronous engine failures are
reported through `capture_error` before the host drains its idle queue,
the queue holds both events in enqueue order, but the claimed dispatch
never happens: the first handler terminates the process inside its fatal
report (`g_error`, plugin.c line 59), so the drain yields only the first
event's effects — which do execute exactly one teardown — and the second
enqueued event is never dispatched at all, rather than executing as a
no-op against the terminated session. -/
theorem C3_first_error_aborts_dispatch :
    capture_error (capture_error [] (some "first failure")) (some "second failure") =
      [{ message := some "first failure" }, { message := some "second failure" }] ∧
    drain_idle_queue
      (capture_error (capture_error [] (some "first failure")) (some "second failure")) =
      [[HandlerEffect.markFailure, HandlerEffect.requestDisconnect,
        HandlerEffect.fatalReport "first failure"]] ∧
    (capture_error_idle { message := some "first failure" }).2 = HandlerOutcome.aborted ∧
    (run_effects SessionState.running
      (List.flatten (drain_idle_queue
        (capture_error (capture_error [] (some "first failure"))
          (some "second failure"))))).2 = 1 := by
  refine ⟨rfl, rfl, rfl, rfl⟩

/-- Claim C8 (code bug): on the message path the queued handler marks the
session failed and requests host-side disconnect, but then aborts the
process inside the fatal report — it never releases the message buffer,
never frees the event and never returns `G_SOURCE_REMOVE`, although the
source contains that (dead) cleanup code at plugin.c lines 60-67; only
the no-message (clean engine exit) path performs its housekeeping and
returns to the main loop. -/
theorem C8_message_handler_aborts_before_release :
    (capture_error_idle { message := some "boom" }).1 =
      [HandlerEffect.markFailure, HandlerEffect.requestDisconnect,
       HandlerEffect.fatalReport "boom"] ∧
    (capture_error_idle { message := some "boom" }).2 = HandlerOutcome.aborted ∧
    HandlerEffect.freeMessage ∉ (capture_error_idle { message := some "boom" }).1 ∧
    HandlerEffect.releaseEvent ∉ (capture_error_idle { message := some "boom" }).1 ∧
    (capture_error_idle { message := none }).1 = [HandlerEffect.releaseEvent] ∧
    (capture_error_idle { message := none }).2 = HandlerOutcome.returned G_SOURCE_REMOVE := by
  refine ⟨rfl, rfl, ?_, ?_, rfl, rfl⟩ <;> decide

end Seaside
